import Mathlib

/-!
Verification development for the core of a browser 3D scene editor:
the scene-graph/selection store (`useSceneStore` in the Zustand store
module), the grouping and ungrouping algorithms (`createGroup`,
`ungroup`), object removal with cascading delete (`removeObject`),
selection toggling (`toggleObjectSelection`), and the soft-selection
vertex deformation step of the `DraggableVertex` component
(`calculateFalloff` and the vertex loop of `onPointerMove`).

Transforms are modelled exactly over `ℚ`: a `THREE.Object3D`'s
position/quaternion/scale is represented by one affine map (a 3×3
linear part plus a translation vector).  In every operation modelled
here the matrix products that three.js decomposes back into
position/quaternion/scale are products of a pure translation with a
TRS matrix, for which decompose-then-recompose is the identity, so the
matrix-level model agrees with the source.  Reference identity of the
mutable `THREE.Object3D` values (needed for the `===` comparisons in
the store) is modelled by a `ref` tag carried by each object.
-/

/-- A 3-component vector of rationals (exact model of `THREE.Vector3`). -/
abbrev Vec3 : Type := ℚ × ℚ × ℚ

/-- A 3×3 matrix of rationals, row-major: `mij` is row `i`, column `j`.
Models the linear (rotation·scale) part of a three.js transform. -/
structure Mat3 where
  m00 : ℚ
  m01 : ℚ
  m02 : ℚ
  m10 : ℚ
  m11 : ℚ
  m12 : ℚ
  m20 : ℚ
  m21 : ℚ
  m22 : ℚ
  deriving DecidableEq

/-- Matrix product. -/
def Mat3.mul (A B : Mat3) : Mat3 :=
  ⟨A.m00 * B.m00 + A.m01 * B.m10 + A.m02 * B.m20,
   A.m00 * B.m01 + A.m01 * B.m11 + A.m02 * B.m21,
   A.m00 * B.m02 + A.m01 * B.m12 + A.m02 * B.m22,
   A.m10 * B.m00 + A.m11 * B.m10 + A.m12 * B.m20,
   A.m10 * B.m01 + A.m11 * B.m11 + A.m12 * B.m21,
   A.m10 * B.m02 + A.m11 * B.m12 + A.m12 * B.m22,
   A.m20 * B.m00 + A.m21 * B.m10 + A.m22 * B.m20,
   A.m20 * B.m01 + A.m21 * B.m11 + A.m22 * B.m21,
   A.m20 * B.m02 + A.m21 * B.m12 + A.m22 * B.m22⟩

/-- Identity matrix. -/
def Mat3.one : Mat3 := ⟨1, 0, 0, 0, 1, 0, 0, 0, 1⟩

/-- Matrix-vector product. -/
def Mat3.mulVec (A : Mat3) (v : Vec3) : Vec3 :=
  (A.m00 * v.1 + A.m01 * v.2.1 + A.m02 * v.2.2,
   A.m10 * v.1 + A.m11 * v.2.1 + A.m12 * v.2.2,
   A.m20 * v.1 + A.m21 * v.2.1 + A.m22 * v.2.2)

/-- An affine transform: `x ↦ lin ⬝ x + tr`.  Models the full local (or
world) transform of a `THREE.Object3D` (`matrix` / `matrixWorld`). -/
structure Affine where
  lin : Mat3
  tr : Vec3
  deriving DecidableEq

/-- Composition of affine maps: `(A.comp B) x = A (B x)`
(matrix product `A.matrix * B.matrix`). -/
def Affine.comp (A B : Affine) : Affine :=
  ⟨A.lin.mul B.lin, A.tr + A.lin.mulVec B.tr⟩

/-- `calculateFalloff` from the `DraggableVertex` component:

```
const calculateFalloff = (distance, radius = 1) => {
  if (distance >= radius) return 0;
  const t = distance / radius;
  return Math.pow(1 - Math.pow(t, 2), 2);
};
```
-/
def calculateFalloff (distance radius : ℚ) : ℚ :=
  if radius ≤ distance then 0
  else (1 - (distance / radius) ^ 2) ^ 2

/-- A `THREE.Object3D` as the store manipulates it.  `ref` models the
object's reference identity (the `===` comparisons and the parent
pointers installed by `group.add` are by reference); `trans` is the
local transform; `attached` is the three.js scene-graph parent (the
`ref` of the parent object), set by `group.add` and cleared by
`removeFromParent`; `isGroup` records `instanceof THREE.Group`. -/
structure Obj3D where
  ref : Nat
  trans : Affine
  attached : Option Nat
  isGroup : Bool
  deriving DecidableEq

/-- A `SceneObject` entry of the store. -/
structure SceneObject where
  id : Nat
  object : Obj3D
  name : String
  visible : Bool
  parentId : Option Nat
  deriving DecidableEq

/-- `EditMode`. -/
inductive EditMode where
  | object
  | vertex
  | edge
  | face
  deriving DecidableEq

/-- `TransformMode`. -/
inductive TransformMode where
  | translate
  | rotate
  | scale
  deriving DecidableEq

/-- The Zustand `SceneState` (function fields omitted).  The primary
selection `selectedObject` holds a `THREE.Object3D` reference, modelled
by its `ref` tag; `selectedObjects` is the multi-selection `Set` of ids;
`selectedElements` the vertex-index list. -/
structure SceneState where
  objects : List SceneObject
  selectedObject : Option Nat
  selectedObjects : Finset Nat
  transformMode : TransformMode
  editMode : EditMode
  selectedElements : List Nat
  deriving DecidableEq

/-- Look an object up by reference (models following a three.js parent
pointer into the current set of live objects). -/
def findByRef (objs : List Obj3D) (r : Nat) : Option Obj3D :=
  objs.find? (fun o => o.ref == r)

/-- World transform of an object: `matrixWorld = parent.matrixWorld *
matrix`, chased along the `attached` (three.js parent) chain.  `fuel`
bounds the chain length; every call below passes the number of live
objects, which bounds any acyclic chain. -/
def worldAffine (objs : List Obj3D) : Nat → Obj3D → Affine
  | 0, o => o.trans
  | Nat.succ fuel, o =>
    match o.attached with
    | none => o.trans
    | some r =>
      match findByRef objs r with
      | none => o.trans
      | some p => (worldAffine objs fuel p).comp o.trans

/-- `getWorldPosition`: the translation component of the world matrix. -/
def getWorldPosition (objs : List Obj3D) (fuel : Nat) (o : Obj3D) : Vec3 :=
  (worldAffine objs fuel o).tr

/-- `addObject(object, name, parentId)`: appends a new entry with
`visible = true`.  `fresh` stands for the generated
`crypto.randomUUID()`.  The source performs no check on `parentId`. -/
def addObject (object : Obj3D) (name : String) (parentId : Option Nat)
    (fresh : Nat) (s : SceneState) : SceneState :=
  { s with objects :=
      s.objects ++ [{ id := fresh, object := object, name := name,
                      visible := true, parentId := parentId }] }

/-- The `idsToRemove` set of `removeObject`: the removed id together
with every direct child's id. -/
def idsToRemove (objs : List SceneObject) (id : Nat) : Finset Nat :=
  objs.foldl
    (fun acc o => if o.parentId == some id then insert o.id acc else acc)
    {id}

/-- `removeObject(id)`: drops every object in `idsToRemove`, clears the
primary selection only when the object found under the removed `id`
itself is (by reference, `===`) the primary selection, and filters the
removed ids out of the multi-selection set. -/
def removeObject (id : Nat) (s : SceneState) : SceneState :=
  let toRemove := idsToRemove s.objects id
  { s with
    objects := s.objects.filter (fun o => !(o.id ∈ toRemove : Bool)),
    selectedObject :=
      match s.objects.find? (fun o => o.id == id), s.selectedObject with
      | some o, some r => if o.object.ref == r then none else s.selectedObject
      | _, _ => s.selectedObject,
    selectedObjects := s.selectedObjects.filter (fun j => j ∉ toRemove) }

/-- `toggleObjectSelection(id)`: toggles `id` in the multi-selection
set; when the resulting set has exactly one element it looks up **the
toggled id** in the object list and, if found, promotes that object to
the primary selection and clears the element selection. -/
def toggleObjectSelection (id : Nat) (s : SceneState) : SceneState :=
  let newSelection :=
    if id ∈ s.selectedObjects then s.selectedObjects.erase id
    else insert id s.selectedObjects
  if newSelection.card = 1 then
    match s.objects.find? (fun o => o.id == id) with
    | some selectedObj =>
      { s with selectedObjects := newSelection,
               selectedObject := some selectedObj.object.ref,
               selectedElements := [] }
    | none => { s with selectedObjects := newSelection }
  else { s with selectedObjects := newSelection }

/-- `setEditMode(mode)`: sets the mode and clears the element
selection. -/
def setEditMode (mode : EditMode) (s : SceneState) : SceneState :=
  { s with editMode := mode, selectedElements := [] }

/-- The `state.objects.map` loop of `createGroup`, made explicit as a
left-to-right pass because each iteration mutates the shared three.js
graph: `getWorldPosition` is evaluated against the objects processed so
far (already re-parented), the objects still to come, and the new group
object.  For each selected object it copies the world position, sets
the local position to `worldPosition - center` (rotation and scale are
untouched), re-parents the three.js object under the group
(`group.add`), and sets `parentId` to the group id. -/
def groupStep (sel : Finset Nat) (center : Vec3) (groupId groupRef : Nat)
    (gObj : Obj3D) : List SceneObject → List SceneObject → List SceneObject
  | acc, [] => acc
  | acc, o :: rest =>
    if o.id ∈ sel then
      let ctx := (acc ++ o :: rest).map (fun so => so.object) ++ [gObj]
      let wp := getWorldPosition ctx ctx.length o.object
      let o' : SceneObject :=
        { o with
          parentId := some groupId,
          object := { o.object with
            trans := ⟨o.object.trans.lin, wp - center⟩,
            attached := some groupRef } }
      groupStep sel center groupId groupRef gObj (acc ++ [o']) rest
    else groupStep sel center groupId groupRef gObj (acc ++ [o]) rest

/-- The centroid loop at the top of `createGroup`: sum the world
positions of those selected ids that match an existing object and
divide by their count (`divideScalar` runs only when the count is
positive; otherwise the accumulator stays at the origin). -/
def createGroupCenter (s : SceneState) : Vec3 :=
  let ctx0 := s.objects.map (fun so => so.object)
  let found := s.selectedObjects.filter
    (fun i => (s.objects.find? (fun o => o.id == i)).isSome)
  let count := found.card
  let sum : Vec3 := s.selectedObjects.sum (fun i =>
    match s.objects.find? (fun o => o.id == i) with
    | some o => getWorldPosition ctx0 ctx0.length o.object
    | none => 0)
  if 0 < count then ((count : ℚ)⁻¹) • sum else 0

/-- `createGroup()`: no-op when fewer than two ids are multi-selected;
otherwise averages the world positions of the selected objects that
exist (`createGroupCenter`), creates a `THREE.Group` at that centroid,
re-parents each selected object under it preserving its world position
(`groupStep`), appends the group entry with an auto-numbered name, and
selects the new group.  `freshId` stands for the generated
`crypto.randomUUID()` and `freshRef` for the identity of the freshly
constructed group object. -/
def createGroup (freshId freshRef : Nat) (s : SceneState) : SceneState :=
  if s.selectedObjects.card < 2 then s
  else
    let center : Vec3 := createGroupCenter s
    let gObj : Obj3D :=
      { ref := freshRef, trans := ⟨Mat3.one, center⟩,
        attached := none, isGroup := true }
    let updated :=
      groupStep s.selectedObjects center freshId freshRef gObj [] s.objects
    let groupCount := (updated.filter (fun o => o.object.isGroup)).length
    { s with
      objects := updated ++
        [{ id := freshId, object := gObj,
           name := "Group " ++ toString (groupCount + 1),
           visible := true, parentId := none }],
      selectedObjects := {freshId},
      selectedObject := some freshRef }

/-- The body of the `map` inside `ungroup`: for an object whose
`parentId` is the group id, `applyMatrix4(worldMatrix)` premultiplies
the local matrix, `removeFromParent()` detaches it from the three.js
parent, and `parentId` is cleared; every other object is untouched. -/
def ungroupChild (worldMatrix : Affine) (groupId : Nat)
    (o : SceneObject) : SceneObject :=
  if o.parentId == some groupId then
    { o with
      parentId := none,
      object := { o.object with
        trans := worldMatrix.comp o.object.trans,
        attached := none } }
  else o

/-- `ungroup(groupId)`: no-op when no object has that id (existence is
the only check performed); otherwise bakes the found object's world
matrix into every object whose `parentId` is the group id
(`ungroupChild`), removes the found object from the list, and clears
the whole selection. -/
def ungroup (groupId : Nat) (s : SceneState) : SceneState :=
  match s.objects.find? (fun o => o.id == groupId) with
  | none => s
  | some groupObj =>
    let ctx := s.objects.map (fun so => so.object)
    let worldMatrix := worldAffine ctx ctx.length groupObj.object
    let updated := (s.objects.filter (fun o => !(o.id == groupId))).map
      (ungroupChild worldMatrix groupId)
    { s with objects := updated, selectedObjects := ∅,
             selectedObject := none }

/-- Squared Euclidean distance between two points.
`THREE.Vector3.distanceTo` returns the square root of this; the
deformation code consumes that distance only through its square
(`Math.pow(t, 2)` inside `calculateFalloff`), so the composition
`calculateFalloff(vertex.distanceTo(target), radius)` is represented
exactly over `ℚ` by `calculateFalloffSq (sqDist vertex target) radius`
(see `calculateFalloffSq_sq`). -/
def sqDist (a b : Vec3) : ℚ :=
  (a.1 - b.1) ^ 2 + (a.2.1 - b.2.1) ^ 2 + (a.2.2 - b.2.2) ^ 2

/-- `calculateFalloff` expressed on the squared distance: the guard
`distance >= radius` becomes `distance² ≥ radius²` (equivalent for the
nonnegative values produced by `distanceTo`), and
`(distance / radius)²` becomes `distance² / radius²`. -/
def calculateFalloffSq (d2 radius : ℚ) : ℚ :=
  if radius ^ 2 ≤ d2 then 0 else (1 - d2 / radius ^ 2) ^ 2

/-- The vertex-update loop of `onPointerMove` in the soft-selection
variant, given the already-computed local-space drag delta: the selected
vertex position is read once from the **current** buffer, then every
vertex of the current buffer is tested against the falloff of its
current distance to that position and, when the influence is positive,
moved by `influence * localDelta`. -/
def onPointerMoveStep (positions : List Vec3) (vertexIndex : Nat)
    (localDelta : Vec3) (radius : ℚ) : List Vec3 :=
  let selectedVertexPos := positions.getD vertexIndex 0
  positions.map (fun vertex =>
    let influence := calculateFalloffSq (sqDist vertex selectedVertexPos) radius
    if 0 < influence then vertex + influence • localDelta else vertex)

/-- Modelled from the spec: the soft-selection policy sentence — "move
every vertex in the mesh by `delta * falloffWeight(distance(vertex,
targetAtDragStart), radius)` … re-evaluated each update using
drag-start positions, not continuously accumulated positions".  The
falloff distance of each vertex is measured between drag-start snapshot
positions (`startPositions`), while the displacement is applied to the
corresponding current position. -/
def softSelectionSpecStep (startPositions positions : List Vec3)
    (vertexIndex : Nat) (delta : Vec3) (radius : ℚ) : List Vec3 :=
  let targetAtDragStart := startPositions.getD vertexIndex 0
  (startPositions.zip positions).map (fun p =>
    p.2 + (calculateFalloffSq (sqDist p.1 targetAtDragStart) radius) • delta)

/-! Helper constructors and concrete example objects for witnesses
and counterexamples. -/

def v3 (x y z : ℚ) : Vec3 := (x, y, z)

def baseState (objs : List SceneObject) (sel : Finset Nat)
    (prim : Option Nat) : SceneState :=
  { objects := objs, selectedObject := prim, selectedObjects := sel,
    transformMode := TransformMode.translate, editMode := EditMode.object,
    selectedElements := [] }

/-- A root (unparented, non-group) scene object at a given position. -/
def rootEntry (id ref : Nat) (pos : Vec3) : SceneObject :=
  { id := id, object := ⟨ref, ⟨Mat3.one, pos⟩, none, false⟩,
    name := "obj", visible := true, parentId := none }

def entryG : SceneObject :=
  { id := 0, object := ⟨100, ⟨Mat3.one, v3 0 0 0⟩, none, true⟩,
    name := "G", visible := true, parentId := none }

def entryA : SceneObject :=
  { id := 1, object := ⟨101, ⟨Mat3.one, v3 1 0 0⟩, some 100, false⟩,
    name := "A", visible := true, parentId := some 0 }

def entryB : SceneObject :=
  { id := 2, object := ⟨102, ⟨Mat3.one, v3 2 0 0⟩, some 100, false⟩,
    name := "B", visible := true, parentId := some 0 }

def entryA0 : SceneObject :=
  { id := 0, object := ⟨100, ⟨Mat3.one, v3 1 0 0⟩, none, false⟩,
    name := "A", visible := true, parentId := none }

def entryB1 : SceneObject :=
  { id := 1, object := ⟨101, ⟨Mat3.one, v3 2 0 0⟩, none, false⟩,
    name := "B", visible := true, parentId := none }

def entryX : SceneObject := rootEntry 0 100 (v3 1 2 3)

/-- What `groupStep` does to a single object when the world-position
lookup degenerates to the local position (the object has no three.js
parent): a pure per-object function. -/
def groupReparent (sel : Finset Nat) (center : Vec3) (groupId groupRef : Nat)
    (o : SceneObject) : SceneObject :=
  if o.id ∈ sel then
    { o with
      parentId := some groupId,
      object := { o.object with
        trans := ⟨o.object.trans.lin, o.object.trans.tr - center⟩,
        attached := some groupRef } }
  else o

def scale2 : Mat3 := ⟨2, 0, 0, 0, 2, 0, 0, 0, 2⟩

def entryP : SceneObject :=
  { id := 0, object := ⟨100, ⟨scale2, v3 0 0 0⟩, none, true⟩,
    name := "P", visible := true, parentId := none }

def entryB4 : SceneObject :=
  { id := 2, object := ⟨102, ⟨Mat3.one, v3 4 0 0⟩, none, false⟩,
    name := "B", visible := true, parentId := none }

theorem Mat3.one_mul (B : Mat3) : Mat3.mul Mat3.one B = B := by
  cases B
  simp [Mat3.mul, Mat3.one]

theorem Mat3.one_mulVec (v : Vec3) : Mat3.one.mulVec v = v := by
  obtain ⟨x, y, z⟩ := v
  simp [Mat3.mulVec, Mat3.one]

theorem Affine.translation_comp (c : Vec3) (B : Affine) :
    Affine.comp ⟨Mat3.one, c⟩ B = ⟨B.lin, c + B.tr⟩ := by
  simp [Affine.comp, Mat3.one_mul, Mat3.one_mulVec]

theorem calculateFalloff_nonneg (d r : ℚ) : 0 ≤ calculateFalloff d r := by
  unfold calculateFalloff
  split
  · exact le_refl 0
  · positivity

/-- C2: for every radius `r > 0`, `calculateFalloff 0 r = 1`,
`calculateFalloff d r = 0` for every `d ≥ r`, and `calculateFalloff`
is monotonically non-increasing in the distance argument on `[0, r]`. -/
theorem claim_C2_falloff_contract (r : ℚ) (hr : 0 < r) :
    calculateFalloff 0 r = 1 ∧
    (∀ d : ℚ, r ≤ d → calculateFalloff d r = 0) ∧
    (∀ d₁ d₂ : ℚ, 0 ≤ d₁ → d₁ ≤ d₂ → d₂ ≤ r →
      calculateFalloff d₂ r ≤ calculateFalloff d₁ r) := by
  refine ⟨?_, ?_, ?_⟩
  · rw [calculateFalloff, if_neg (not_le.mpr hr)]
    norm_num
  · intro d hd
    simp [calculateFalloff, hd]
  · intro d₁ d₂ h0 h12 h2r
    by_cases hc : r ≤ d₂
    · rw [show calculateFalloff d₂ r = 0 by simp [calculateFalloff, hc]]
      exact calculateFalloff_nonneg d₁ r
    · push_neg at hc
      have hc1 : d₁ < r := lt_of_le_of_lt h12 hc
      rw [calculateFalloff, if_neg (not_le.mpr hc), calculateFalloff,
        if_neg (not_le.mpr hc1)]
      have hx : (0 : ℚ) ≤ d₁ / r := div_nonneg h0 hr.le
      have hxy : d₁ / r ≤ d₂ / r := by gcongr
      have hy1 : d₂ / r ≤ 1 := (div_le_one hr).mpr h2r
      have hsq : (d₁ / r) ^ 2 ≤ (d₂ / r) ^ 2 := pow_le_pow_left₀ hx hxy 2
      have hsq1 : (d₂ / r) ^ 2 ≤ 1 := by
        have := pow_le_pow_left₀ (hx.trans hxy) hy1 2
        simpa using this
      have h1 : (0 : ℚ) ≤ 1 - (d₂ / r) ^ 2 := by linarith
      have h2 : 1 - (d₂ / r) ^ 2 ≤ 1 - (d₁ / r) ^ 2 := by linarith
      exact pow_le_pow_left₀ h1 h2 2

theorem claim_C2_falloff_contract_witness :
    calculateFalloff 0 2 = 1 ∧ calculateFalloff 3 2 = 0 ∧
    calculateFalloff 2 2 ≤ calculateFalloff 1 2 :=
  ⟨(claim_C2_falloff_contract 2 (by norm_num)).1,
   (claim_C2_falloff_contract 2 (by norm_num)).2.1 3 (by norm_num),
   (claim_C2_falloff_contract 2 (by norm_num)).2.2 1 2 (by norm_num)
     (by norm_num) (by norm_num)⟩

theorem worldAffine_root (objs : List Obj3D) (fuel : Nat) (o : Obj3D)
    (h : o.attached = none) : worldAffine objs fuel o = o.trans := by
  cases fuel with
  | zero => rfl
  | succ n => simp [worldAffine, h]

theorem calculateFalloffSq_nonneg (d2 r : ℚ) : 0 ≤ calculateFalloffSq d2 r := by
  unfold calculateFalloffSq
  split
  · exact le_refl 0
  · positivity

theorem calculateFalloffSq_sq (d r : ℚ) (hd : 0 ≤ d) (hr : 0 ≤ r) :
    calculateFalloffSq (d ^ 2) r = calculateFalloff d r := by
  unfold calculateFalloffSq calculateFalloff
  by_cases h : r ≤ d
  · rw [if_pos (pow_le_pow_left₀ hr h 2), if_pos h]
  · push_neg at h
    have hlt : d ^ 2 < r ^ 2 := by
      have ht : (2 : ℕ) ≠ 0 := by norm_num
      exact pow_lt_pow_left₀ h hd ht
    rw [if_neg (not_le.mpr hlt), if_neg (not_le.mpr h), div_pow]

theorem mem_foldl_insert_of_mem (id : Nat) :
    ∀ (objs : List SceneObject) (acc : Finset Nat) (j : Nat), j ∈ acc →
      j ∈ objs.foldl
        (fun acc o => if o.parentId == some id then insert o.id acc else acc)
        acc
  | [], _, _, hj => hj
  | o :: rest, acc, j, hj => by
    simp only [List.foldl_cons]
    apply mem_foldl_insert_of_mem id rest
    split
    · exact Finset.mem_insert_of_mem hj
    · exact hj

theorem mem_foldl_insert_child (id : Nat) :
    ∀ (objs : List SceneObject) (acc : Finset Nat) (o : SceneObject),
      o ∈ objs → o.parentId = some id →
      o.id ∈ objs.foldl
        (fun acc o => if o.parentId == some id then insert o.id acc else acc)
        acc
  | [], _, _, h, _ => absurd h (List.not_mem_nil _)
  | a :: rest, acc, o, h, hp => by
    simp only [List.foldl_cons]
    rcases List.mem_cons.mp h with he | hm
    · subst he
      apply mem_foldl_insert_of_mem
      rw [if_pos (by simp [hp])]
      exact Finset.mem_insert_self _ _
    · exact mem_foldl_insert_child id rest _ o hm hp

theorem mem_idsToRemove_self (objs : List SceneObject) (id : Nat) :
    id ∈ idsToRemove objs id :=
  mem_foldl_insert_of_mem id objs {id} id (Finset.mem_singleton_self id)

theorem mem_idsToRemove_child (objs : List SceneObject) (id : Nat)
    (o : SceneObject) (h : o ∈ objs) (hp : o.parentId = some id) :
    o.id ∈ idsToRemove objs id :=
  mem_foldl_insert_child id objs {id} o h hp

/-- C8: after `setEditMode newMode` the element selection is empty and
the edit mode is the requested one, regardless of the prior state. -/
theorem claim_C8_setEditMode_clears_elements (s : SceneState) (mode : EditMode) :
    (setEditMode mode s).selectedElements = [] ∧
    (setEditMode mode s).editMode = mode :=
  ⟨rfl, rfl⟩

/-- C9: every id removed by `removeObject id` — the argument id and the
id of every direct child — is also absent from the multi-selection set
afterwards. -/
theorem claim_C9_removeObject_prunes_multiselection (s : SceneState) (id : Nat) :
    id ∉ (removeObject id s).selectedObjects ∧
    ∀ o ∈ s.objects, o.parentId = some id →
      o.id ∉ (removeObject id s).selectedObjects := by
  have hsel : (removeObject id s).selectedObjects =
      s.selectedObjects.filter (fun j => j ∉ idsToRemove s.objects id) := rfl
  constructor
  · rw [hsel]
    intro hmem
    exact (Finset.mem_filter.mp hmem).2 (mem_idsToRemove_self s.objects id)
  · intro o ho hp hmem
    rw [hsel] at hmem
    exact (Finset.mem_filter.mp hmem).2 (mem_idsToRemove_child s.objects id o ho hp)

theorem claim_C9_witness :
    0 ∉ (removeObject 0 (baseState [entryG, entryA, entryB] {0, 1}
        (some 101))).selectedObjects ∧
    1 ∉ (removeObject 0 (baseState [entryG, entryA, entryB] {0, 1}
        (some 101))).selectedObjects :=
  ⟨(claim_C9_removeObject_prunes_multiselection _ 0).1,
   (claim_C9_removeObject_prunes_multiselection _ 0).2 entryA
     (List.mem_cons_of_mem _ (List.mem_cons_self _ _)) rfl⟩

/-- C10: `toggleObjectSelection` performs no existence check on its
argument: for an id matching no existing object the id is still toggled
in the multi-selection set, while the primary selection and the element
selection are left unchanged (the promotion lookup fails), including
when the toggle makes the set size exactly 1. -/
theorem claim_C10_toggle_no_existence_check (s : SceneState) (id : Nat)
    (h : ∀ o ∈ s.objects, o.id ≠ id) :
    (toggleObjectSelection id s).selectedObjects =
      (if id ∈ s.selectedObjects then s.selectedObjects.erase id
       else insert id s.selectedObjects) ∧
    (toggleObjectSelection id s).selectedObject = s.selectedObject ∧
    (toggleObjectSelection id s).selectedElements = s.selectedElements := by
  have hfind : s.objects.find? (fun o => o.id == id) = none :=
    List.find?_eq_none.mpr (fun o ho => by simpa using h o ho)
  simp [toggleObjectSelection, hfind]

theorem claim_C10_witness :
    (toggleObjectSelection 7 (baseState [entryG] ∅ none)).selectedObjects = {7} ∧
    (toggleObjectSelection 7 (baseState [entryG] ∅ none)).selectedObject = none ∧
    (toggleObjectSelection 7 (baseState [entryG] ∅ none)).selectedElements = [] := by
  have h := claim_C10_toggle_no_existence_check (baseState [entryG] ∅ none) 7
    (by decide)
  refine ⟨?_, h.2.1, h.2.2⟩
  rw [h.1]
  decide

/-- C5 (amended): `addObject` never fails: for every `parentId` —
matching an existing id, unknown, or absent — it appends exactly one
new object carrying `visible = true` and the given `parentId`, and
every previously existing object is still present. -/
theorem claim_C5_addObject_amended (s : SceneState) (o : Obj3D)
    (name : String) (parentId : Option Nat) (fresh : Nat) :
    (addObject o name parentId fresh s).objects =
      s.objects ++ [{ id := fresh, object := o, name := name,
                      visible := true, parentId := parentId }] ∧
    ∀ ob ∈ s.objects, ob ∈ (addObject o name parentId fresh s).objects := by
  refine ⟨rfl, ?_⟩
  intro ob hob
  exact List.mem_append.mpr (Or.inl hob)

theorem claim_C5_amended_witness :
    (addObject ⟨50, ⟨Mat3.one, v3 0 0 0⟩, none, false⟩ "cube" (some 99) 7
        (baseState [entryG] ∅ none)).objects =
      [entryG,
       { id := 7, object := ⟨50, ⟨Mat3.one, v3 0 0 0⟩, none, false⟩,
         name := "cube", visible := true, parentId := some 99 }] ∧
    entryG ∈ (addObject ⟨50, ⟨Mat3.one, v3 0 0 0⟩, none, false⟩ "cube" (some 99) 7
        (baseState [entryG] ∅ none)).objects := by
  have h := claim_C5_addObject_amended (baseState [entryG] ∅ none)
    ⟨50, ⟨Mat3.one, v3 0 0 0⟩, none, false⟩ "cube" (some 99) 7
  exact ⟨h.1, h.2 entryG (List.mem_cons_self _ _)⟩

/-- C5 counterexample: supplying the unknown parent id `99` does not
fail and does insert: on the empty state the list afterwards holds
exactly one object, visible, with `parentId = 99`. -/
theorem claim_C5_counterexample :
    ((addObject ⟨50, ⟨Mat3.one, v3 0 0 0⟩, none, false⟩ "cube" (some 99) 7
        (baseState [] ∅ none)).objects.map
      (fun o => (o.id, o.visible, o.parentId))) = [(7, true, some 99)] := by
  decide

/-- C3 (amended): `removeObject g` removes from the object list every
object whose id is in `idsToRemove` (`g` and every direct child), but
the primary selection is cleared only when the object found under `g`
itself is (by reference) the primary selection; a primary selection
that is anything else — including a removed cascaded child — is left
unchanged. -/
theorem claim_C3_removeObject_amended (s : SceneState) (g : Nat) :
    (∀ o ∈ (removeObject g s).objects, o.id ∉ idsToRemove s.objects g) ∧
    (∀ oG, s.objects.find? (fun o => o.id == g) = some oG →
      ((s.selectedObject = some oG.object.ref →
         (removeObject g s).selectedObject = none) ∧
       (∀ r, s.selectedObject = some r → r ≠ oG.object.ref →
         (removeObject g s).selectedObject = some r))) := by
  constructor
  · intro o ho
    have hmem := List.mem_filter.mp ho
    simpa using hmem.2
  · intro oG hfind
    have hproj : (removeObject g s).selectedObject =
        match s.objects.find? (fun o => o.id == g), s.selectedObject with
        | some o, some r => if o.object.ref == r then none else s.selectedObject
        | _, _ => s.selectedObject := rfl
    constructor
    · intro hsel
      rw [hproj, hfind, hsel]
      simp
    · intro r hsel hne
      rw [hproj, hfind, hsel]
      have hcond : ¬ ((oG.object.ref == r) = true) := by
        simp only [beq_iff_eq]
        exact fun hh => hne hh.symm
      show (if (oG.object.ref == r) = true then none else some r) = some r
      rw [if_neg hcond]

theorem claim_C3_amended_witness :
    (removeObject 0 (baseState [entryG, entryA, entryB] ∅
        (some 100))).selectedObject = none ∧
    (removeObject 0 (baseState [entryG, entryA, entryB] ∅
        (some 101))).selectedObject = some 101 := by
  have h1 := (claim_C3_removeObject_amended
    (baseState [entryG, entryA, entryB] ∅ (some 100)) 0).2 entryG rfl
  have h2 := (claim_C3_removeObject_amended
    (baseState [entryG, entryA, entryB] ∅ (some 101)) 0).2 entryG rfl
  exact ⟨h1.1 rfl, h2.2 101 rfl (by decide)⟩

/-- C3 counterexample: `G` (id 0) has direct children `A` (id 1) and
`B` (id 2); the primary selection is `A`'s object (ref 101).
`removeObject 0` removes all three objects, but the primary selection
stays pointing at the removed child `A` instead of becoming null. -/
theorem claim_C3_counterexample :
    (removeObject 0 (baseState [entryG, entryA, entryB] ∅
        (some 101))).objects = [] ∧
    (removeObject 0 (baseState [entryG, entryA, entryB] ∅
        (some 101))).selectedObject = some 101 := by
  decide

/-- C4 (amended): whenever `toggleObjectSelection id` leaves the
multi-selection set with exactly one member and `id` matches an
existing object, the object promoted to primary selection is the
**toggled id's** object and the element selection is cleared — also in
the removal case, where the remaining sole member is a different id and
the just-deselected object is the one promoted. -/
theorem claim_C4_toggle_promotion_amended (s : SceneState) (id : Nat)
    (o : SceneObject)
    (hfind : s.objects.find? (fun ob => ob.id == id) = some o)
    (hcard : (if id ∈ s.selectedObjects then s.selectedObjects.erase id
              else insert id s.selectedObjects).card = 1) :
    (toggleObjectSelection id s).selectedObjects =
      (if id ∈ s.selectedObjects then s.selectedObjects.erase id
       else insert id s.selectedObjects) ∧
    (toggleObjectSelection id s).selectedObject = some o.object.ref ∧
    (toggleObjectSelection id s).selectedElements = [] := by
  simp only [toggleObjectSelection]
  rw [if_pos hcard, hfind]
  exact ⟨rfl, rfl, rfl⟩

theorem claim_C4_amended_witness :
    (toggleObjectSelection 0 (baseState [entryA0, entryB1] {0, 1}
        none)).selectedObject = some 100 ∧
    (toggleObjectSelection 0 (baseState [entryA0, entryB1] {0, 1}
        none)).selectedElements = [] := by
  have h := claim_C4_toggle_promotion_amended
    (baseState [entryA0, entryB1] {0, 1} none) 0 entryA0 rfl (by decide)
  exact ⟨h.2.1, h.2.2⟩

/-- C4 counterexample: objects `A` (id 0, ref 100) and `B` (id 1,
ref 101) are both multi-selected; toggling id 0 removes it, leaving
`{1}` as the sole-member selection set, yet the object promoted to
primary selection is the deselected `A` (ref 100) — not the remaining
member `B`, whose object has ref 101. -/
theorem claim_C4_counterexample :
    (toggleObjectSelection 0 (baseState [entryA0, entryB1] {0, 1}
        none)).selectedObjects = {1} ∧
    (toggleObjectSelection 0 (baseState [entryA0, entryB1] {0, 1}
        none)).selectedObject = some 100 ∧
    ((baseState [entryA0, entryB1] {0, 1} none).objects.find?
        (fun o => o.id == 1)).map (fun o => o.object.ref) = some 101 ∧
    (100 : Nat) ≠ 101 := by
  decide

/-- C6 (amended): `ungroup id` is a no-op exactly when `id` matches no
existing object; the group-type precondition is absent — an existing
object is processed whether or not it is a group: it is removed from
the object list, every other object whose `parentId` is `id` reappears
with the found object's world matrix baked into its local transform and
re-rooted (`parentId` and the three.js parent both cleared), and the
whole selection is cleared. -/
theorem claim_C6_ungroup_amended (s : SceneState) (gid : Nat) :
    (s.objects.find? (fun o => o.id == gid) = none → ungroup gid s = s) ∧
    (∀ oG, s.objects.find? (fun o => o.id == gid) = some oG →
      (∀ o ∈ (ungroup gid s).objects, o.id ≠ gid) ∧
      (∀ o ∈ s.objects, o.id ≠ gid → o.parentId = some gid →
        ({ o with
           parentId := none,
           object := { o.object with
             trans := (worldAffine (s.objects.map (fun so => so.object))
               (s.objects.map (fun so => so.object)).length oG.object).comp
                 o.object.trans,
             attached := none } } : SceneObject) ∈ (ungroup gid s).objects) ∧
      (ungroup gid s).selectedObject = none ∧
      (ungroup gid s).selectedObjects = ∅) := by
  constructor
  · intro h
    unfold ungroup
    rw [h]
  · intro oG h
    refine ⟨?_, ?_, ?_, ?_⟩
    · intro o ho
      simp only [ungroup, h] at ho
      rcases List.mem_map.mp ho with ⟨o', ho', heq⟩
      have hne : o'.id ≠ gid := by
        simpa using (List.mem_filter.mp ho').2
      rw [← heq]
      unfold ungroupChild
      split
      · exact hne
      · exact hne
    · intro o ho hne hpar
      simp only [ungroup, h]
      refine List.mem_map.mpr ⟨o, ?_, ?_⟩
      · exact List.mem_filter.mpr ⟨ho, by simp [hne]⟩
      · unfold ungroupChild
        rw [if_pos (by simp [hpar])]
    · simp only [ungroup, h]
    · simp only [ungroup, h]

theorem claim_C6_amended_witness :
    ungroup 5 (baseState [entryG, entryA] ∅ none) =
      baseState [entryG, entryA] ∅ none ∧
    (ungroup 0 (baseState [entryG, entryA] ∅ (some 100))).selectedObject =
      none ∧
    ({ entryA with
       parentId := none,
       object := { entryA.object with
         trans := (worldAffine ((baseState [entryG, entryA] ∅
             (some 100)).objects.map (fun so => so.object))
           ((baseState [entryG, entryA] ∅ (some 100)).objects.map
             (fun so => so.object)).length entryG.object).comp
               entryA.object.trans,
         attached := none } } : SceneObject) ∈
      (ungroup 0 (baseState [entryG, entryA] ∅ (some 100))).objects := by
  have h1 := (claim_C6_ungroup_amended (baseState [entryG, entryA] ∅ none)
    5).1 rfl
  have h2 := (claim_C6_ungroup_amended (baseState [entryG, entryA] ∅
    (some 100)) 0).2 entryG rfl
  exact ⟨h1, h2.2.2.1, h2.2.1 entryA
    (List.mem_cons_of_mem _ (List.mem_cons_self _ _)) (by decide) rfl⟩

/-- C6 counterexample: `X` (id 0) is an existing **non-group** object;
`ungroup 0` is not a no-op — it deletes `X` from the object list. -/
theorem claim_C6_counterexample :
    ungroup 0 (baseState [entryX] ∅ none) ≠ baseState [entryX] ∅ none ∧
    (ungroup 0 (baseState [entryX] ∅ none)).objects = [] := by
  decide

theorem zip_self_map {α β : Type} (g : α → α → β) :
    ∀ l : List α, (l.zip l).map (fun p => g p.1 p.2) = l.map (fun x => g x x)
  | [] => rfl
  | x :: xs => by
    simp only [List.zip_cons_cons, List.map_cons]
    rw [zip_self_map g xs]

theorem softStep_point (v t delta : Vec3) (r : ℚ) :
    (if 0 < calculateFalloffSq (sqDist v t) r
     then v + calculateFalloffSq (sqDist v t) r • delta else v) =
    v + calculateFalloffSq (sqDist v t) r • delta := by
  split
  · rfl
  · next h =>
    have h0 : calculateFalloffSq (sqDist v t) r = 0 :=
      le_antisymm (not_lt.mp h) (calculateFalloffSq_nonneg _ _)
    rw [h0, zero_smul, add_zero]

/-- C7 (amended): every update of the soft-selection drag moves each
vertex by `localDelta` scaled by the falloff weight of that vertex's
distance to the target vertex measured in the **current** (accumulated)
vertex buffer at the time of the update — i.e. the code's step equals
the spec's snapshot-policy step only when the snapshot is taken to be
the current positions.  (On the first update of a drag the two
policies therefore coincide; `claim_C7_counterexample` separates them
on the second update.) -/
theorem claim_C7_softselection_uses_current_positions
    (positions : List Vec3) (vertexIndex : Nat) (delta : Vec3) (radius : ℚ) :
    onPointerMoveStep positions vertexIndex delta radius =
      softSelectionSpecStep positions positions vertexIndex delta radius := by
  simp only [onPointerMoveStep, softSelectionSpecStep]
  rw [zip_self_map
    (fun a b => b + calculateFalloffSq (sqDist a (positions.getD vertexIndex 0))
      radius • delta) positions]
  exact List.map_congr_left (fun v _ => softStep_point v _ delta radius)

/-- C7 counterexample: vertices start at `(0,0,0)` and `(1,0,0)`; the
target is vertex 0, the radius 2, and each update carries local delta
`(1,0,0)`.  After the first update the second update's result differs
from the spec's snapshot policy (distances measured in the drag-start
positions): the code weights vertex 1 by the falloff of its
**accumulated** distance, so repeated updates drift. -/
theorem claim_C7_counterexample :
    onPointerMoveStep
        (onPointerMoveStep [v3 0 0 0, v3 1 0 0] 0 (v3 1 0 0) 2) 0 (v3 1 0 0) 2 ≠
      softSelectionSpecStep [v3 0 0 0, v3 1 0 0]
        (onPointerMoveStep [v3 0 0 0, v3 1 0 0] 0 (v3 1 0 0) 2) 0 (v3 1 0 0) 2 := by
  have h1 : onPointerMoveStep [v3 0 0 0, v3 1 0 0] 0 (v3 1 0 0) 2 =
      [v3 1 0 0, v3 (25/16) 0 0] := by
    norm_num [onPointerMoveStep, calculateFalloffSq, sqDist, v3, List.getD,
      Prod.smul_mk, smul_eq_mul, Prod.mk_add_mk, Prod.ext_iff]
  rw [h1]
  norm_num [onPointerMoveStep, softSelectionSpecStep, calculateFalloffSq,
    sqDist, v3, List.getD, Prod.smul_mk, smul_eq_mul, Prod.mk_add_mk,
    List.zip_cons_cons, Prod.ext_iff]

theorem groupReparent_id (sel : Finset Nat) (center : Vec3)
    (groupId groupRef : Nat) (o : SceneObject) :
    (groupReparent sel center groupId groupRef o).id = o.id := by
  unfold groupReparent
  split <;> rfl

/-- When every selected object in the remaining list is a three.js
root, the stateful `groupStep` pass is the pure map `groupReparent`. -/
theorem groupStep_eq_map (sel : Finset Nat) (center : Vec3)
    (groupId groupRef : Nat) (gObj : Obj3D) :
    ∀ (rest acc : List SceneObject),
      (∀ o ∈ rest, o.id ∈ sel → o.object.attached = none) →
      groupStep sel center groupId groupRef gObj acc rest =
        acc ++ rest.map (groupReparent sel center groupId groupRef)
  | [], acc, _ => by simp [groupStep]
  | o :: rest, acc, h => by
    have hrest : ∀ o' ∈ rest, o'.id ∈ sel → o'.object.attached = none :=
      fun o' ho' => h o' (List.mem_cons_of_mem o ho')
    by_cases hsel : o.id ∈ sel
    · have hroot : o.object.attached = none :=
        h o (List.mem_cons_self o rest) hsel
    
      simp only [groupStep, if_pos hsel, getWorldPosition,
        worldAffine_root _ _ _ hroot]
      rw [groupStep_eq_map sel center groupId groupRef gObj rest _ hrest]
      simp [groupReparent, if_pos hsel]
    · simp only [groupStep, if_neg hsel]
      rw [groupStep_eq_map sel center groupId groupRef gObj rest _ hrest]
      simp [groupReparent, if_neg hsel]

theorem ungroupChild_id (wm : Affine) (gid : Nat) (o : SceneObject) :
    (ungroupChild wm gid o).id = o.id := by
  unfold ungroupChild
  split <;> rfl

theorem find?_id_map (f : SceneObject → SceneObject) (i : Nat)
    (hid : ∀ o, (f o).id = o.id) :
    ∀ l : List SceneObject,
      (l.map f).find? (fun o => o.id == i) =
        (l.find? (fun o => o.id == i)).map f
  | [] => rfl
  | o :: l => by
    by_cases h : (o.id == i) = true
    · rw [List.map_cons,
        @List.find?_cons_of_pos _ (fun o => o.id == i) (f o) (l.map f)
          (by simpa [hid] using h),
        @List.find?_cons_of_pos _ (fun o => o.id == i) o l h]
      rfl
    · rw [List.map_cons,
        @List.find?_cons_of_neg _ (fun o => o.id == i) (f o) (l.map f)
          (by simpa [hid] using h),
        @List.find?_cons_of_neg _ (fun o => o.id == i) o l h,
        find?_id_map f i hid l]

/-- When every selected object is a three.js root, `createGroup`
produces exactly the `groupReparent` image of the object list followed
by the new group entry (whose auto-generated name we need not pin
down). -/
theorem createGroup_objects_of_roots (s : SceneState) (freshId freshRef : Nat)
    (hcard : 2 ≤ s.selectedObjects.card)
    (hroot : ∀ o ∈ s.objects, o.id ∈ s.selectedObjects →
      o.object.attached = none) :
    ∃ nm : String,
      (createGroup freshId freshRef s).objects =
        s.objects.map (groupReparent s.selectedObjects (createGroupCenter s)
          freshId freshRef) ++
        [{ id := freshId,
           object := ⟨freshRef, ⟨Mat3.one, createGroupCenter s⟩, none, true⟩,
           name := nm, visible := true, parentId := none }] := by
  refine ⟨"Group " ++ toString
    (((s.objects.map (groupReparent s.selectedObjects (createGroupCenter s)
      freshId freshRef)).filter (fun o => o.object.isGroup)).length + 1), ?_⟩
  simp only [createGroup, if_neg (not_lt.mpr hcard)]
  rw [groupStep_eq_map _ _ _ _ _ s.objects [] hroot]
  simp

theorem find?_cons_id_self (gid : Nat) (o : SceneObject)
    (l : List SceneObject) (h : o.id = gid) :
    (o :: l).find? (fun x => x.id == gid) = some o :=
  List.find?_cons_of_pos l (by simp [h])

theorem filter_ne_id_singleton (gid : Nat) (o : SceneObject) (h : o.id = gid) :
    [o].filter (fun x => !(x.id == gid)) = [] := by
  simp [h]

/-- C1 (amended): grouping at least two existing objects and
immediately ungrouping the created group restores each grouped
object's world transform — position, rotation and scale — **exactly**,
provided each selected object is a three.js root (no `attached`
parent) at group time; `claim_C1_counterexample` shows that an object
nested under a scaled parent keeps only its world position, not its
world rotation/scale.  `freshId`/`freshRef` stand for the fresh
uuid/object identity of the created group. -/
theorem claim_C1_group_ungroup_roundtrip (s : SceneState)
    (freshId freshRef : Nat)
    (hcard : 2 ≤ s.selectedObjects.card)
    (hroot : ∀ o ∈ s.objects, o.id ∈ s.selectedObjects →
      o.object.attached = none)
    (hfid : ∀ o ∈ s.objects, o.id ≠ freshId)
    (i : Nat) (hi : i ∈ s.selectedObjects)
    (oi : SceneObject)
    (hoi : s.objects.find? (fun o => o.id == i) = some oi) :
    ∃ oi',
      (ungroup freshId (createGroup freshId freshRef s)).objects.find?
          (fun o => o.id == i) = some oi' ∧
      worldAffine
          ((ungroup freshId (createGroup freshId freshRef s)).objects.map
            (fun so => so.object))
          ((ungroup freshId (createGroup freshId freshRef s)).objects.length)
          oi'.object =
        worldAffine (s.objects.map (fun so => so.object)) s.objects.length
          oi.object := by
  obtain ⟨nm, hs1⟩ := createGroup_objects_of_roots s freshId freshRef hcard hroot
  have hoi_mem : oi ∈ s.objects := List.mem_of_find?_eq_some hoi
  have hoi_id : oi.id = i := by simpa using List.find?_some hoi
  have hoi_sel : oi.id ∈ s.selectedObjects := by rw [hoi_id]; exact hi
  have hoi_root : oi.object.attached = none := hroot oi hoi_mem hoi_sel
  have hleft : (s.objects.map (groupReparent s.selectedObjects
      (createGroupCenter s) freshId freshRef)).find?
        (fun o => o.id == freshId) = none := by
    apply List.find?_eq_none.mpr
    intro o' ho'
    rcases List.mem_map.mp ho' with ⟨o, ho, rfl⟩
    simp only [groupReparent_id, beq_iff_eq]
    exact hfid o ho
  have hfind_g : (createGroup freshId freshRef s).objects.find?
      (fun o => o.id == freshId) =
      some { id := freshId,
             object := ⟨freshRef, ⟨Mat3.one, createGroupCenter s⟩, none, true⟩,
             name := nm, visible := true, parentId := none } := by
    rw [hs1, List.find?_append, hleft]
    rw [find?_cons_id_self freshId _ [] rfl]
    rfl
  have hu_objs : (ungroup freshId (createGroup freshId freshRef s)).objects =
      ((createGroup freshId freshRef s).objects.filter
          (fun o => !(o.id == freshId))).map
        (ungroupChild
          (worldAffine
            ((createGroup freshId freshRef s).objects.map (fun so => so.object))
            (((createGroup freshId freshRef s).objects.map
              (fun so => so.object)).length)
            (⟨freshRef, ⟨Mat3.one, createGroupCenter s⟩, none, true⟩ : Obj3D))
          freshId) := by
    simp only [ungroup, hfind_g]
  have hwm : worldAffine
      ((createGroup freshId freshRef s).objects.map (fun so => so.object))
      (((createGroup freshId freshRef s).objects.map
        (fun so => so.object)).length)
      (⟨freshRef, ⟨Mat3.one, createGroupCenter s⟩, none, true⟩ : Obj3D) =
      ⟨Mat3.one, createGroupCenter s⟩ :=
    worldAffine_root _ _ _ rfl
  rw [hwm] at hu_objs
  have hfil : (createGroup freshId freshRef s).objects.filter
      (fun o => !(o.id == freshId)) =
      s.objects.map (groupReparent s.selectedObjects (createGroupCenter s)
        freshId freshRef) := by
    rw [hs1, List.filter_append]
    have h1 : (s.objects.map (groupReparent s.selectedObjects
        (createGroupCenter s) freshId freshRef)).filter
          (fun o => !(o.id == freshId)) =
        s.objects.map (groupReparent s.selectedObjects (createGroupCenter s)
          freshId freshRef) := by
      apply List.filter_eq_self.mpr
      intro o' ho'
      rcases List.mem_map.mp ho' with ⟨o, ho, rfl⟩
      simp [groupReparent_id, hfid o ho]
    rw [h1, filter_ne_id_singleton freshId _ rfl, List.append_nil]
  rw [hfil, List.map_map] at hu_objs
  have hcomp_id : ∀ o : SceneObject,
      ((ungroupChild ⟨Mat3.one, createGroupCenter s⟩ freshId ∘
        groupReparent s.selectedObjects (createGroupCenter s) freshId freshRef)
          o).id = o.id := by
    intro o
    simp [Function.comp, ungroupChild_id, groupReparent_id]
  have hfind_i : (ungroup freshId (createGroup freshId freshRef s)).objects.find?
      (fun o => o.id == i) =
      some ((ungroupChild ⟨Mat3.one, createGroupCenter s⟩ freshId ∘
        groupReparent s.selectedObjects (createGroupCenter s) freshId freshRef)
          oi) := by
    rw [hu_objs, find?_id_map _ i hcomp_id s.objects, hoi]
    rfl
  have hatt : ((ungroupChild ⟨Mat3.one, createGroupCenter s⟩ freshId ∘
      groupReparent s.selectedObjects (createGroupCenter s) freshId freshRef)
        oi).object.attached = none := by
    simp [Function.comp, groupReparent, ungroupChild, hoi_sel]
  refine ⟨_, hfind_i, ?_⟩
  rw [worldAffine_root _ _ _ hatt, worldAffine_root _ _ _ hoi_root]
  have hadd : createGroupCenter s +
      (oi.object.trans.tr - createGroupCenter s) = oi.object.trans.tr := by
    abel
  simp [Function.comp, groupReparent, ungroupChild, hoi_sel,
    Affine.translation_comp, hadd]

theorem claim_C1_roundtrip_witness :
    ∃ oi',
      (ungroup 5 (createGroup 5 105 (baseState [entryA0, entryB1] {0, 1}
          none))).objects.find? (fun o => o.id == 0) = some oi' ∧
      worldAffine
          ((ungroup 5 (createGroup 5 105 (baseState [entryA0, entryB1] {0, 1}
            none))).objects.map (fun so => so.object))
          ((ungroup 5 (createGroup 5 105 (baseState [entryA0, entryB1] {0, 1}
            none))).objects.length)
          oi'.object =
        worldAffine ((baseState [entryA0, entryB1] {0, 1} none).objects.map
            (fun so => so.object))
          (baseState [entryA0, entryB1] {0, 1} none).objects.length
          entryA0.object :=
  claim_C1_group_ungroup_roundtrip (baseState [entryA0, entryB1] {0, 1} none)
    5 105 (by decide) (by decide) (by decide) 0 (by decide) entryA0 rfl

theorem find?_cons_eval {α : Type} (p : α → Bool) (a : α) (l : List α) :
    (a :: l).find? p = if p a then some a else l.find? p := by
  by_cases h : p a
  · rw [List.find?_cons_of_pos _ h, if_pos h]
  · rw [List.find?_cons_of_neg _ h, if_neg h]

/-- C1 counterexample: `A` (id 1) sits under the group `P`, which has
been scaled by 2 (as the transform gizmo can do), so `A`'s world
transform is `⟨scale2, (2,0,0)⟩`.  Selecting `A` and the root `B` (id
2), grouping (fresh id 3) and immediately ungrouping yields `A` with
world transform `⟨Mat3.one, (2,0,0)⟩`: the world position survives but
the world scale does not, refuting the claimed full round-trip for
arbitrary scene states. -/
theorem claim_C1_counterexample :
    worldAffine ((baseState [entryP, entryA, entryB4] {1, 2} none).objects.map
        (fun so => so.object))
      (baseState [entryP, entryA, entryB4] {1, 2} none).objects.length
      entryA.object = ⟨scale2, v3 2 0 0⟩ ∧
    ((ungroup 3 (createGroup 3 103 (baseState [entryP, entryA, entryB4] {1, 2}
        none))).objects.map (fun so => (so.id, so.object))) =
      [(0, entryP.object),
       (1, (⟨101, ⟨Mat3.one, v3 2 0 0⟩, none, false⟩ : Obj3D)),
       (2, (⟨102, ⟨Mat3.one, v3 4 0 0⟩, none, false⟩ : Obj3D))] ∧
    worldAffine ((ungroup 3 (createGroup 3 103 (baseState [entryP, entryA,
        entryB4] {1, 2} none))).objects.map (fun so => so.object))
      ((ungroup 3 (createGroup 3 103 (baseState [entryP, entryA, entryB4]
        {1, 2} none))).objects.length)
      (⟨101, ⟨Mat3.one, v3 2 0 0⟩, none, false⟩ : Obj3D) =
      ⟨Mat3.one, v3 2 0 0⟩ ∧
    (⟨scale2, v3 2 0 0⟩ : Affine) ≠ ⟨Mat3.one, v3 2 0 0⟩ := by
  refine ⟨?_, ?_, worldAffine_root _ _ _ rfl, by decide⟩
  · norm_num [worldAffine, findByRef, find?_cons_eval, baseState, entryP,
      entryA, entryB4, v3, scale2, Mat3.one, Mat3.mul, Mat3.mulVec,
      Affine.comp, Prod.mk_add_mk]
  · norm_num [createGroup, createGroupCenter, groupStep, getWorldPosition,
      worldAffine, findByRef, ungroup, ungroupChild, baseState, entryP,
      entryA, entryB4, v3, scale2, Mat3.one, Mat3.mul, Mat3.mulVec,
      Affine.comp, Prod.mk_add_mk, Prod.mk_sub_mk, Prod.smul_mk, smul_eq_mul,
      find?_cons_eval, List.filter_cons, Finset.sum_insert,
      Finset.sum_singleton, Finset.filter_insert, Finset.filter_singleton,
      Finset.mem_insert, Finset.mem_singleton,
      Finset.card_insert_of_not_mem, Finset.card_singleton]
